import Mathlib

/-
Shallow embedding of the MathQuiz component of src/src/App.jsx (variant 1,
lines 1-249; the second variant after the document separator is embedded
only where a claim cites it, namely its resetStats).

Modelling conventions:
* `Math.random()` draws are passed in explicitly as rationals `u` with
  `0 ≤ u < 1`; `randomInt u lo hi = ⌊u * (hi - lo + 1)⌋ + lo` mirrors
  `Math.floor(Math.random() * (max - min + 1)) + min`.
* React `useState` state is gathered into the record `QuizState`; each
  event handler becomes a function `QuizState → QuizState`.
* The answer buffer is only ever built from keypad digits (the hidden
  input is `inputMode="none"`, `tabIndex={-1}`), so `Number(answer)` on a
  digit-only string is its decimal value, with `Number("") = 0`; this is
  `strNumber`.
* The synchronous part of `handleCheck` (logging, counting, correctness) is
  `checkStep`; the 200 ms `setTimeout` that calls `next()` after a correct
  answer always runs to completion and is modelled as the separate
  transition `nextStep`, which is also exactly what the Skip button runs.
* `maxNumber` is an integer: the Max # input has `pattern="[0-9]*"` and
  its onChange clamps with `Math.max(1, Number(...))`.
-/

namespace MathQuiz

/-- The four operation symbols `["+", "-", "×", "÷"]`. -/
inductive Op where
  | add
  | sub
  | mul
  | div
  deriving DecidableEq

/-- The display symbol of an operation, as in the `ops` array. -/
def Op.symbol : Op → String
  | .add => "+"
  | .sub => "-"
  | .mul => "×"
  | .div => "÷"

/-- One entry of the log, as built in `handleCheck`:
`{ text, given, correct, ok, ts }`. -/
structure LogEntry where
  text : String
  given : String
  correctAns : Int
  ok : Bool
  ts : Int
  deriving DecidableEq

/-- The React state of the `MathQuiz` component (the pieces the core state
machine reads or writes; `flash`, `showLog` and focus handling are
presentational). -/
structure QuizState where
  a : Int
  b : Int
  op : Op
  answer : String
  maxNumber : Int
  attempts : Nat
  correctCount : Nat
  totalSeconds : Nat
  questionSeconds : Nat
  log : List LogEntry
  countedThisQuestion : Bool
  deriving DecidableEq

/-- The helper `randomInt(min, max) = Math.floor(Math.random() * (max - min + 1)) + min`,
with the `Math.random()` output `u` made explicit. -/
def randomInt (u : ℚ) (lo hi : Int) : Int :=
  ⌊u * ((hi : ℚ) - (lo : ℚ) + 1)⌋ + lo

/-- The generator `spawnProblem(currentOp, max)`: draw both operands from
`[2, Math.max(2, max)]`; swap them for subtraction when `newA < newB`.
Returns the `(newA, newB)` pair passed to `setA`/`setB`. -/
def spawnProblem (u1 u2 : ℚ) (currentOp : Op) (maxN : Int) : Int × Int :=
  let newA := randomInt u1 2 (max 2 maxN)
  let newB := randomInt u2 2 (max 2 maxN)
  if currentOp = Op.sub ∧ newA < newB then (newB, newA) else (newA, newB)

/-- The `correct` useMemo: expected result of the current problem.
Division is `Math.trunc(a / b)`, i.e. truncation toward zero. -/
def correctVal (s : QuizState) : Int :=
  match s.op with
  | .add => s.a + s.b
  | .sub => s.a - s.b
  | .mul => s.a * s.b
  | .div => Int.tdiv s.a s.b

/-- The value `Number(answer)` for a keypad-built (digit-only) answer string:
its base-10 value, with `Number("") = 0`. -/
def strNumber (s : String) : Nat :=
  s.data.foldl (fun n c => 10 * n + (c.toNat - Char.toNat '0')) 0

/-- The log entry `{ text: `${a} ${op} ${b}`, given: String(answer || ""),
correct, ok, ts: Date.now() }` built by `handleCheck`. -/
def mkEntry (ts : Int) (s : QuizState) : LogEntry :=
  { text := toString s.a ++ " " ++ s.op.symbol ++ " " ++ toString s.b
    given := s.answer
    correctAns := correctVal s
    ok := decide ((strNumber s.answer : Int) = correctVal s)
    ts := ts }

/-- The synchronous part of `handleCheck`: always prepend a log entry and
cap the log at 200 (`[entry, ...L].slice(0, 200)`); if the question has
not been counted yet, bump `attempts` (and `correctCount` on a correct
answer) and set the counted flag. The 200 ms flash timeout that later
calls `next()` on a correct answer is the separate `nextStep`. -/
def checkStep (ts : Int) (s : QuizState) : QuizState :=
  let isCorrect := (strNumber s.answer : Int) = correctVal s
  let s1 := { s with log := (mkEntry ts s :: s.log).take 200 }
  if s.countedThisQuestion then s1
  else
    { s1 with
      attempts := s1.attempts + 1
      correctCount := if isCorrect then s1.correctCount + 1 else s1.correctCount
      countedThisQuestion := true }

/-- The handler `next()`: spawn a fresh problem with the current op and max, clear the
answer buffer and per-question timer, clear the counted flag. This is the
Skip button onClick and the delayed advance after a correct answer. -/
def nextStep (u1 u2 : ℚ) (s : QuizState) : QuizState :=
  let p := spawnProblem u1 u2 s.op s.maxNumber
  { s with
    a := p.1
    b := p.2
    answer := ""
    questionSeconds := 0
    countedThisQuestion := false }

/-- An operation pill click: `setOp(o); next()` — `next` still closes over
the old `op`, so the spawn uses the previous operation. -/
def opSelectStep (o : Op) (u1 u2 : ℚ) (s : QuizState) : QuizState :=
  { nextStep u1 u2 s with op := o }

/-- The handler `insertDigit(d)`: append the digit to the answer buffer. -/
def digitStep (d : Char) (s : QuizState) : QuizState :=
  { s with answer := s.answer.push d }

/-- Keypad backspace: `answer.slice(0, -1)`. -/
def backspaceStep (s : QuizState) : QuizState :=
  { s with answer := s.answer.dropRight 1 }

/-- Keypad clear: `setAnswer("")`. -/
def clearStep (s : QuizState) : QuizState :=
  { s with answer := "" }

/-- The handler `resetStats()` of variant 1 (lines 130-136): zero the four stats and
empty the log; nothing else is touched (in particular
`countedThisQuestion` and `answer` are left as they are). -/
def resetStatsStep (s : QuizState) : QuizState :=
  { s with
    attempts := 0
    correctCount := 0
    totalSeconds := 0
    questionSeconds := 0
    log := [] }

/-- The handler `resetStats()` of the second variant (lines 492-497): additionally
clears `countedThisQuestion` and the answer buffer. -/
def resetStatsStep2 (s : QuizState) : QuizState :=
  { resetStatsStep s with
    countedThisQuestion := false
    answer := "" }

/-- The one-second interval tick. -/
def tickStep (s : QuizState) : QuizState :=
  { s with
    totalSeconds := s.totalSeconds + 1
    questionSeconds := s.questionSeconds + 1 }

/-- The Max-number input onChange: `setMaxNumber(Math.max(1, Number(value)))`. -/
def setMaxStep (v : Int) (s : QuizState) : QuizState :=
  { s with maxNumber := max 1 v }

/-- The initial component state: `a, b = randomInt(2, 12)`, `op = "×"`,
everything else empty/zero. -/
def initState (u1 u2 : ℚ) : QuizState :=
  { a := randomInt u1 2 12
    b := randomInt u2 2 12
    op := .mul
    answer := ""
    maxNumber := 12
    attempts := 0
    correctCount := 0
    totalSeconds := 0
    questionSeconds := 0
    log := []
    countedThisQuestion := false }

/-- One user- or timer-driven transition of the component. -/
inductive Step : QuizState → QuizState → Prop where
  | check (ts : Int) (s : QuizState) : Step s (checkStep ts s)
  | advance (u1 u2 : ℚ) (s : QuizState) : Step s (nextStep u1 u2 s)
  | selectOp (o : Op) (u1 u2 : ℚ) (s : QuizState) : Step s (opSelectStep o u1 u2 s)
  | digit (d : Char) (s : QuizState) (hd : d.isDigit = true) : Step s (digitStep d s)
  | backspace (s : QuizState) : Step s (backspaceStep s)
  | clear (s : QuizState) : Step s (clearStep s)
  | reset (s : QuizState) : Step s (resetStatsStep s)
  | setMax (v : Int) (s : QuizState) : Step s (setMaxStep v s)
  | tick (s : QuizState) : Step s (tickStep s)

/-- States reachable from some initial mount by user/timer transitions. -/
inductive Reachable : QuizState → Prop where
  | init (u1 u2 : ℚ) : Reachable (initState u1 u2)
  | step {s t : QuizState} : Reachable s → Step s t → Reachable t

/-- The derived `% correct` display:
`attempts ? Math.round((correctCount / attempts) * 100) : 0`
(`Math.round x = ⌊x + 1/2⌋`). -/
def pctCorrect (attempts correctCount : Nat) : Int :=
  if attempts = 0 then 0
  else ⌊((correctCount : ℚ) / (attempts : ℚ)) * 100 + 1 / 2⌋

/-- The derived average display:
`attempts ? Math.round(totalSeconds / attempts) : 0`. -/
def avgSeconds (attempts totalSeconds : Nat) : Int :=
  if attempts = 0 then 0
  else ⌊(totalSeconds : ℚ) / (attempts : ℚ) + 1 / 2⌋

/-- Modelled from the spec (for comparison with `avgSeconds`):
`averageSecondsPerQuestion = round(totalElapsedSeconds / max(1, attemptsCounted))`. -/
def specAvgSeconds (attempts totalSeconds : Nat) : Int :=
  ⌊(totalSeconds : ℚ) / (max 1 attempts : Nat) + 1 / 2⌋

/-- Modelled from the spec (for comparison with `pctCorrect`):
`percentCorrect = round(100 * correctCounted / attemptsCounted)`,
0 when `attemptsCounted == 0`. -/
def specPctCorrect (attempts correctCount : Nat) : Int :=
  if attempts = 0 then 0
  else ⌊(100 * (correctCount : ℚ)) / (attempts : ℚ) + 1 / 2⌋

/-- A generic reachable-looking state used as a concrete test input. -/
def sampleState : QuizState :=
  { a := 7
    b := 5
    op := Op.add
    answer := ""
    maxNumber := 12
    attempts := 3
    correctCount := 2
    totalSeconds := 40
    questionSeconds := 4
    log := []
    countedThisQuestion := false }

/-- Test state for C3: an uncounted question with a typed answer. -/
def skipLogState : QuizState :=
  { sampleState with answer := "9", attempts := 5 }

/-- Test state for C4: a fresh, never-submitted question. -/
def freshQuestionState : QuizState :=
  { sampleState with attempts := 0, correctCount := 0 }

/-- Test state for C5: a counted question with a typed answer. -/
def countedState : QuizState :=
  { sampleState with countedThisQuestion := true, answer := "8" }

/-- Test state for C10: one counted, correctly answered question. -/
def oneCorrectState : QuizState :=
  { sampleState with attempts := 1, correctCount := 1 }

theorem randomInt_mem (u : ℚ) (lo hi : Int) (h0 : 0 ≤ u) (h1 : u < 1)
    (hlh : lo ≤ hi) : lo ≤ randomInt u lo hi ∧ randomInt u lo hi ≤ hi := by
  have hn : (0 : ℚ) < (hi : ℚ) - (lo : ℚ) + 1 := by
    have h : (lo : ℚ) ≤ (hi : ℚ) := by exact_mod_cast hlh
    linarith
  have hfl : 0 ≤ ⌊u * ((hi : ℚ) - (lo : ℚ) + 1)⌋ :=
    Int.floor_nonneg.mpr (mul_nonneg h0 hn.le)
  have hub : ⌊u * ((hi : ℚ) - (lo : ℚ) + 1)⌋ < hi - lo + 1 := by
    apply Int.floor_lt.mpr
    have hm : u * ((hi : ℚ) - (lo : ℚ) + 1) < (hi : ℚ) - (lo : ℚ) + 1 := by
      have := mul_lt_mul_of_pos_right h1 hn
      rwa [one_mul] at this
    calc u * ((hi : ℚ) - (lo : ℚ) + 1) < (hi : ℚ) - (lo : ℚ) + 1 := hm
      _ = ((hi - lo + 1 : Int) : ℚ) := by push_cast; ring
  unfold randomInt
  omega

theorem spawnProblem_mem (u1 u2 : ℚ) (o : Op) (maxN : Int)
    (h10 : 0 ≤ u1) (h11 : u1 < 1) (h20 : 0 ≤ u2) (h21 : u2 < 1) :
    2 ≤ (spawnProblem u1 u2 o maxN).1 ∧
      (spawnProblem u1 u2 o maxN).1 ≤ max 2 maxN ∧
      2 ≤ (spawnProblem u1 u2 o maxN).2 ∧
      (spawnProblem u1 u2 o maxN).2 ≤ max 2 maxN := by
  have hA := randomInt_mem u1 2 (max 2 maxN) h10 h11 (le_max_left _ _)
  have hB := randomInt_mem u2 2 (max 2 maxN) h20 h21 (le_max_left _ _)
  unfold spawnProblem
  dsimp only
  split
  · exact ⟨hB.1, hB.2, hA.1, hA.2⟩
  · exact ⟨hA.1, hA.2, hB.1, hB.2⟩

/-- C7: for every Subtract generation, the returned pair is the drawn pair
possibly swapped, the first operand is at least the second, and the
expected result `a - b` is non-negative. -/
theorem c7_sub_operands_ordered (u1 u2 : ℚ) (maxN : Int) :
    (spawnProblem u1 u2 Op.sub maxN).2 ≤ (spawnProblem u1 u2 Op.sub maxN).1 ∧
      0 ≤ (spawnProblem u1 u2 Op.sub maxN).1 - (spawnProblem u1 u2 Op.sub maxN).2 ∧
      (spawnProblem u1 u2 Op.sub maxN =
          (randomInt u1 2 (max 2 maxN), randomInt u2 2 (max 2 maxN)) ∨
        spawnProblem u1 u2 Op.sub maxN =
          (randomInt u2 2 (max 2 maxN), randomInt u1 2 (max 2 maxN))) := by
  unfold spawnProblem
  dsimp only
  by_cases h : randomInt u1 2 (max 2 maxN) < randomInt u2 2 (max 2 maxN)
  · rw [if_pos ⟨rfl, h⟩]
    exact ⟨h.le, sub_nonneg.mpr h.le, Or.inr rfl⟩
  · rw [if_neg (fun hx => h hx.2)]
    exact ⟨not_lt.mp h, sub_nonneg.mpr (not_lt.mp h), Or.inl rfl⟩

/-- C8: under a configured maximum (clamped to at least 2), both generated
operands lie in `[2, max 2 M]`, for every operation. -/
theorem c8_operands_in_range (u1 u2 : ℚ) (o : Op) (maxN : Int)
    (h10 : 0 ≤ u1) (h11 : u1 < 1) (h20 : 0 ≤ u2) (h21 : u2 < 1) :
    2 ≤ (spawnProblem u1 u2 o maxN).1 ∧
      (spawnProblem u1 u2 o maxN).1 ≤ max 2 maxN ∧
      2 ≤ (spawnProblem u1 u2 o maxN).2 ∧
      (spawnProblem u1 u2 o maxN).2 ≤ max 2 maxN :=
  spawnProblem_mem u1 u2 o maxN h10 h11 h20 h21

/-- Witness for C8 at the draws `u1 = u2 = 0`, `op = ×`, `max = 12`. -/
theorem c8_operands_in_range_witness :
    (0 : ℚ) ≤ 0 ∧ (0 : ℚ) < 1 ∧
      (2 ≤ (spawnProblem 0 0 Op.mul 12).1 ∧
        (spawnProblem 0 0 Op.mul 12).1 ≤ max 2 12 ∧
        2 ≤ (spawnProblem 0 0 Op.mul 12).2 ∧
        (spawnProblem 0 0 Op.mul 12).2 ≤ max 2 12) :=
  ⟨by decide, by decide,
    c8_operands_in_range 0 0 Op.mul 12 (by decide) (by decide) (by decide) (by decide)⟩

/-- C1 counterexample: with the legal draws `u1 = 3/22`, `u2 = 0` and
`max = 12`, Divide generates the problem `3 ÷ 2`, whose first operand is
not a multiple of the second. -/
theorem c1_div_not_exact_cex :
    (0 : ℚ) ≤ 3 / 22 ∧ (3 / 22 : ℚ) < 1 ∧
      spawnProblem (3 / 22) 0 Op.div 12 = (3, 2) ∧ ¬((3 : Int) % 2 = 0) := by
  refine ⟨by norm_num, by norm_num, ?_, by decide⟩
  unfold spawnProblem randomInt
  norm_num

/-- C1 amended: Divide draws both operands independently from `[2, max]`
exactly as Add does (no divisor × quotient construction), so only
`2 ≤ operandB` (and `2 ≤ operandA`) is guaranteed, not divisibility;
the expected answer is the truncated quotient. -/
theorem c1_div_operands_independent (u1 u2 : ℚ) (maxN : Int)
    (h10 : 0 ≤ u1) (h11 : u1 < 1) (h20 : 0 ≤ u2) (h21 : u2 < 1) :
    spawnProblem u1 u2 Op.div maxN = spawnProblem u1 u2 Op.add maxN ∧
      2 ≤ (spawnProblem u1 u2 Op.div maxN).1 ∧
      2 ≤ (spawnProblem u1 u2 Op.div maxN).2 := by
  have h := spawnProblem_mem u1 u2 Op.div maxN h10 h11 h20 h21
  refine ⟨?_, h.1, h.2.2.1⟩
  unfold spawnProblem
  dsimp only
  rw [if_neg (fun hx => Op.noConfusion hx.1), if_neg (fun hx => Op.noConfusion hx.1)]

/-- Witness for the amended C1 at the draws `u1 = u2 = 0`, `max = 12`. -/
theorem c1_div_operands_independent_witness :
    (0 : ℚ) ≤ 0 ∧ (0 : ℚ) < 1 ∧
      (spawnProblem 0 0 Op.div 12 = spawnProblem 0 0 Op.add 12 ∧
        2 ≤ (spawnProblem 0 0 Op.div 12).1 ∧
        2 ≤ (spawnProblem 0 0 Op.div 12).2) :=
  ⟨by decide, by decide,
    c1_div_operands_independent 0 0 12 (by decide) (by decide) (by decide) (by decide)⟩

theorem checkStep_log_eq (ts : Int) (s : QuizState) :
    (checkStep ts s).log = (mkEntry ts s :: s.log).take 200 := by
  unfold checkStep
  cases h : s.countedThisQuestion <;> simp [h]

theorem checkStep_attempts_eq (ts : Int) (s : QuizState) :
    (checkStep ts s).attempts =
      if s.countedThisQuestion then s.attempts else s.attempts + 1 := by
  unfold checkStep
  cases h : s.countedThisQuestion <;> simp [h]

theorem checkStep_correct_eq (ts : Int) (s : QuizState) :
    (checkStep ts s).correctCount =
      if s.countedThisQuestion then s.correctCount
      else if (strNumber s.answer : Int) = correctVal s then s.correctCount + 1
      else s.correctCount := by
  unfold checkStep
  cases h : s.countedThisQuestion <;> simp [h]

theorem checkStep_counted_eq (ts : Int) (s : QuizState) :
    (checkStep ts s).countedThisQuestion = true := by
  unfold checkStep
  cases h : s.countedThisQuestion <;> simp [h]

/-- C9: a submit prepends exactly the one new entry, keeps only the newest
199 old entries after it, and the log length is `min (old + 1) 200`, hence
never above 200. -/
theorem c9_log_newest_first_capped (ts : Int) (s : QuizState) :
    (checkStep ts s).log = mkEntry ts s :: s.log.take 199 ∧
      (checkStep ts s).log.length = min (s.log.length + 1) 200 ∧
      (checkStep ts s).log.length ≤ 200 := by
  have h := checkStep_log_eq ts s
  refine ⟨by rw [h, show (200 : Nat) = 199 + 1 from rfl, List.take_succ_cons], ?_, ?_⟩
  · rw [h, List.length_take, List.length_cons]
    omega
  · rw [h, List.length_take]
    omega

/-- C2 counterexample: submitting with an empty answer buffer is not a
no-op — on `sampleState` (empty buffer, uncounted) it appends a log entry
and increments `attempts` from 3 to 4. -/
theorem c2_empty_submit_cex :
    sampleState.answer = "" ∧ sampleState.countedThisQuestion = false ∧
      sampleState.log.length = 0 ∧ sampleState.attempts = 3 ∧
      (checkStep 0 sampleState).log.length = 1 ∧
      (checkStep 0 sampleState).attempts = 4 := by
  refine ⟨rfl, rfl, rfl, rfl, ?_, ?_⟩ <;> rfl

/-- C2 amended: an empty-buffer submit is processed like any other: it
logs an entry with `given = ""`, counts the attempt when the question is
uncounted, and is scored correct exactly when the expected result is 0
(because `Number("") === 0`). -/
theorem c2_empty_submit_scored (ts : Int) (s : QuizState) (h : s.answer = "") :
    (checkStep ts s).log = (mkEntry ts s :: s.log).take 200 ∧
      (mkEntry ts s).given = "" ∧
      (mkEntry ts s).ok = decide (correctVal s = 0) ∧
      (checkStep ts s).attempts =
        (if s.countedThisQuestion then s.attempts else s.attempts + 1) := by
  refine ⟨checkStep_log_eq ts s, ?_, ?_, checkStep_attempts_eq ts s⟩
  · simp [mkEntry, h]
  · have h0 : (strNumber s.answer : Int) = 0 := by rw [h]; rfl
    simp only [mkEntry, h0]
    simp [eq_comm]

/-- Witness for the amended C2 at the freshly mounted state. -/
theorem c2_empty_submit_scored_witness :
    (checkStep 7 (initState 0 0)).log =
        (mkEntry 7 (initState 0 0) :: (initState 0 0).log).take 200 ∧
      (mkEntry 7 (initState 0 0)).given = "" ∧
      (mkEntry 7 (initState 0 0)).ok = decide (correctVal (initState 0 0) = 0) ∧
      (checkStep 7 (initState 0 0)).attempts =
        (if (initState 0 0).countedThisQuestion then (initState 0 0).attempts
         else (initState 0 0).attempts + 1) :=
  c2_empty_submit_scored 7 (initState 0 0) rfl

/-- C3 counterexample: Skip (`next()`) on an uncounted question appends no
log entry and leaves `attempts` at 5, contrary to the claimed
skipped-attempt record and count. -/
theorem c3_skip_not_logged_cex :
    skipLogState.countedThisQuestion = false ∧ skipLogState.attempts = 5 ∧
      skipLogState.log.length = 0 ∧
      (nextStep 0 0 skipLogState).log.length = 0 ∧
      (nextStep 0 0 skipLogState).attempts = 5 ∧
      (nextStep 0 0 skipLogState).correctCount = skipLogState.correctCount := by
  refine ⟨rfl, rfl, rfl, rfl, rfl, rfl⟩

/-- C3 amended: Skip installs a new problem (spawned with the current
operation and max) and resets the buffer, per-question timer and counted
flag, but logs no record and changes no counter. -/
theorem c3_skip_advances_without_logging (s : QuizState) (u1 u2 : ℚ) :
    (nextStep u1 u2 s).log = s.log ∧
      (nextStep u1 u2 s).attempts = s.attempts ∧
      (nextStep u1 u2 s).correctCount = s.correctCount ∧
      (nextStep u1 u2 s).totalSeconds = s.totalSeconds ∧
      (nextStep u1 u2 s).answer = "" ∧
      (nextStep u1 u2 s).questionSeconds = 0 ∧
      (nextStep u1 u2 s).countedThisQuestion = false ∧
      (nextStep u1 u2 s).op = s.op ∧
      (nextStep u1 u2 s).maxNumber = s.maxNumber ∧
      (nextStep u1 u2 s).a = (spawnProblem u1 u2 s.op s.maxNumber).1 ∧
      (nextStep u1 u2 s).b = (spawnProblem u1 u2 s.op s.maxNumber).2 :=
  ⟨rfl, rfl, rfl, rfl, rfl, rfl, rfl, rfl, rfl, rfl, rfl⟩

/-- C4 counterexample: a question that is skipped before any submit ends
its lifetime with `attempts` unchanged (0, not the claimed exactly 1), so
Skip does not increment the counter. -/
theorem c4_skip_no_increment_cex :
    freshQuestionState.countedThisQuestion = false ∧
      freshQuestionState.attempts = 0 ∧
      (nextStep 0 0 freshQuestionState).attempts = 0 ∧
      (nextStep 0 0 freshQuestionState).countedThisQuestion = false :=
  ⟨rfl, rfl, rfl, rfl⟩

/-- C4 amended: `attempts` rises at most once per question — only a submit
on an uncounted question increments it (together with `correctCount` when
correct); a retry submit changes neither counter; Skip/advance changes
neither counter and is the only transition that clears the counted flag. -/
theorem c4_counted_once_per_question (s : QuizState) (ts : Int) (u1 u2 : ℚ) (d : Char) :
    (checkStep ts s).attempts =
        (if s.countedThisQuestion then s.attempts else s.attempts + 1) ∧
      (checkStep ts s).correctCount =
        (if s.countedThisQuestion then s.correctCount
         else if (strNumber s.answer : Int) = correctVal s then s.correctCount + 1
         else s.correctCount) ∧
      (checkStep ts s).countedThisQuestion = true ∧
      (nextStep u1 u2 s).attempts = s.attempts ∧
      (nextStep u1 u2 s).correctCount = s.correctCount ∧
      (nextStep u1 u2 s).countedThisQuestion = false ∧
      (resetStatsStep s).countedThisQuestion = s.countedThisQuestion ∧
      (tickStep s).countedThisQuestion = s.countedThisQuestion ∧
      (digitStep d s).countedThisQuestion = s.countedThisQuestion ∧
      (backspaceStep s).countedThisQuestion = s.countedThisQuestion ∧
      (clearStep s).countedThisQuestion = s.countedThisQuestion :=
  ⟨checkStep_attempts_eq ts s, checkStep_correct_eq ts s, checkStep_counted_eq ts s,
    rfl, rfl, rfl, rfl, rfl, rfl, rfl, rfl⟩

/-- C5 counterexample: the variant-1 `resetStats` leaves the counted flag
set (the claim says it is cleared), and the variant-2 `resetStats` clears
the answer buffer "8" (the claim says the buffer keeps its value). -/
theorem c5_reset_cex :
    countedState.countedThisQuestion = true ∧ countedState.answer = "8" ∧
      (resetStatsStep countedState).countedThisQuestion = true ∧
      (resetStatsStep2 countedState).answer = "" :=
  ⟨rfl, rfl, rfl, rfl⟩

/-- C5 amended: `resetStats` zeroes the four stats and empties the log;
variant 1 leaves the problem, answer buffer and counted flag untouched,
while variant 2 additionally clears the counted flag and the buffer (the
problem is kept by both). -/
theorem c5_reset_frame (s : QuizState) :
    (resetStatsStep s).attempts = 0 ∧
      (resetStatsStep s).correctCount = 0 ∧
      (resetStatsStep s).totalSeconds = 0 ∧
      (resetStatsStep s).questionSeconds = 0 ∧
      (resetStatsStep s).log = [] ∧
      (resetStatsStep s).a = s.a ∧
      (resetStatsStep s).b = s.b ∧
      (resetStatsStep s).op = s.op ∧
      (resetStatsStep s).answer = s.answer ∧
      (resetStatsStep s).maxNumber = s.maxNumber ∧
      (resetStatsStep s).countedThisQuestion = s.countedThisQuestion ∧
      (resetStatsStep2 s).attempts = 0 ∧
      (resetStatsStep2 s).correctCount = 0 ∧
      (resetStatsStep2 s).totalSeconds = 0 ∧
      (resetStatsStep2 s).questionSeconds = 0 ∧
      (resetStatsStep2 s).log = [] ∧
      (resetStatsStep2 s).a = s.a ∧
      (resetStatsStep2 s).b = s.b ∧
      (resetStatsStep2 s).op = s.op ∧
      (resetStatsStep2 s).maxNumber = s.maxNumber ∧
      (resetStatsStep2 s).countedThisQuestion = false ∧
      (resetStatsStep2 s).answer = "" :=
  ⟨rfl, rfl, rfl, rfl, rfl, rfl, rfl, rfl, rfl, rfl, rfl,
    rfl, rfl, rfl, rfl, rfl, rfl, rfl, rfl, rfl, rfl, rfl⟩

/-- C6 counterexample: at `attempts = 0, totalSeconds = 5` the code shows
an average of 0 while the claimed `round(total / max(1, attempts))`
formula gives 5. -/
theorem c6_avg_cex :
    avgSeconds 0 5 = 0 ∧ specAvgSeconds 0 5 = 5 ∧
      avgSeconds 0 5 ≠ specAvgSeconds 0 5 := by
  refine ⟨by simp [avgSeconds], ?_, ?_⟩
  · unfold specAvgSeconds
    norm_num
  · unfold avgSeconds specAvgSeconds
    norm_num

/-- C6 amended: `percentCorrect` is exactly the claimed rounded formula
(0 at zero attempts), and the displayed average is
`round(total / attempts)` for positive attempts but 0 — not
`round(total / max(1, attempts))` — when attempts is 0. -/
theorem c6_derived_stats (a c t : Nat) :
    pctCorrect a c = specPctCorrect a c ∧
      avgSeconds (a + 1) t = specAvgSeconds (a + 1) t ∧
      avgSeconds 0 t = 0 := by
  refine ⟨?_, ?_, by simp [avgSeconds]⟩
  · unfold pctCorrect specPctCorrect
    by_cases h : a = 0
    · simp [h]
    · rw [if_neg h, if_neg h]
      congr 1
      ring
  · unfold avgSeconds specAvgSeconds
    rw [if_neg (Nat.succ_ne_zero a)]
    have hm : max 1 (a + 1) = a + 1 := by omega
    rw [hm]

/-- C10 counterexample: Skip on the uncounted state with
`attempts = correctCount = 1` leaves both counters at 1; it does not
increment `attemptsCounted` as the claim asserts. -/
theorem c10_skip_counters_cex :
    oneCorrectState.countedThisQuestion = false ∧
      oneCorrectState.attempts = 1 ∧ oneCorrectState.correctCount = 1 ∧
      (nextStep 0 0 oneCorrectState).attempts = 1 ∧
      (nextStep 0 0 oneCorrectState).correctCount = 1 :=
  ⟨rfl, rfl, rfl, rfl, rfl⟩

/-- C10 amended: in every reachable session state
`correctCount ≤ attempts` — a submit bumps `correctCount` only in the
same step that bumps `attempts`, Skip changes neither counter, and
`resetStats` zeroes both. -/
theorem c10_correct_le_attempts (s : QuizState) (h : Reachable s) :
    s.correctCount ≤ s.attempts := by
  induction h with
  | init u1 u2 => exact Nat.le_refl 0
  | step h1 h2 ih =>
    cases h2 with
    | check ts s =>
      rw [checkStep_attempts_eq, checkStep_correct_eq]
      split_ifs <;> omega
    | advance u1 u2 s => exact ih
    | selectOp o u1 u2 s => exact ih
    | digit d s hd => exact ih
    | backspace s => exact ih
    | clear s => exact ih
    | reset s => exact Nat.le_refl 0
    | setMax v s => exact ih
    | tick s => exact ih

/-- Witness for the amended C10 at the freshly mounted state. -/
theorem c10_correct_le_attempts_witness :
    (initState 0 0).correctCount ≤ (initState 0 0).attempts :=
  c10_correct_le_attempts (initState 0 0) (Reachable.init 0 0)

end MathQuiz
